import Mathlib

/-
Shallow embedding of the SnapMark payment backend (src/index.js).

The server keeps two pieces of in-memory state:
  const proUsers = new Set();          -- set of userIds with Pro entitlement
  global.customerMap = new Map();      -- userId -> Stripe customerId

JS `Set` and `Map` preserve insertion order, which the webhook's
customer.subscription.deleted handler depends on (it iterates
customerMap.entries() and breaks at the first match), so both are
modelled as ordered lists.  External collaborators (Stripe API calls,
signature verification) are modelled as parameters carrying their
outcome; the email notifier swallows every error internally and never
changes state, so it has no footprint in the model.
-/

namespace SnapMark

/-- Membership test of JS `Set.has` / the value comparison loop, over the
ordered-list model of a JS string set. -/
def listHas : List String → String → Bool
  | [], _ => false
  | y :: rest, x => if y = x then true else listHas rest x

/-- JS `Set.add`: a no-op when the element is present, otherwise appends it
(insertion order is preserved). -/
def setAdd (s : List String) (x : String) : List String :=
  if listHas s x then s else s ++ [x]

/-- JS `Set.delete`: afterwards the element is absent; every other element
keeps its position. -/
def setDelete : List String → String → List String
  | [], _ => []
  | y :: rest, x => if y = x then setDelete rest x else y :: setDelete rest x

/-- JS `Map.set`: updates the value in place when the key exists (keeping its
position), otherwise appends the new pair at the end. -/
def mapSet : List (String × String) → String → String → List (String × String)
  | [], k, v => [(k, v)]
  | (k', v') :: rest, k, v =>
    if k' = k then (k, v) :: rest else (k', v') :: mapSet rest k v

/-- JS `Map.get`: the value stored under the key, if any. -/
def mapGet : List (String × String) → String → Option String
  | [], _ => none
  | (k, v) :: rest, u => if k = u then some v else mapGet rest u

/-- The `for (let [userId, cId] of global.customerMap.entries())` loop of the
customer.subscription.deleted handler: the first userId (in insertion order)
whose stored customerId equals the given one, if any (the loop breaks at the
first hit). -/
def findUserByCustomer : List (String × String) → String → Option String
  | [], _ => none
  | (u, v) :: rest, c => if v = c then some u else findUserByCustomer rest c

/-- JS truthiness of an optional string field: null/undefined and the empty
string are falsy, every other string is truthy. -/
def truthy : Option String → Bool
  | none => false
  | some s => !(s = "")

/-- The server's in-memory state: `proUsers` (a JS Set of userIds) and
`global.customerMap` (a JS Map from userId to Stripe customerId). -/
structure Store where
  proUsers : List String
  customerMap : List (String × String)
deriving DecidableEq, Repr

/-- A verified Stripe webhook event, as the handler reads it: its `type`
string, `event.data.object.client_reference_id` and
`event.data.object.customer` (each possibly absent). -/
structure StripeEvent where
  type : String
  clientReferenceId : Option String
  customer : Option String
deriving DecidableEq, Repr

/-- The JSON (or text) bodies the routes produce, abstracted to their shape. -/
inductive ResBody where
  | errorMsg (msg : String)
  | receivedTrue
  | successTrue
  | isProBody (b : Bool)
  | urlBody (u : String)
deriving DecidableEq, Repr

/-- An HTTP response: status code and body. -/
structure Response where
  status : Nat
  body : ResBody
deriving DecidableEq, Repr

/-- The store-facing operation of the checkout.session.completed branch
(lines 145-146 of src/index.js): `proUsers.add(userId)` and
`global.customerMap.set(userId, customerId)`.  The spec calls this
`grant(userId, customerRef)`. -/
def grant (s : Store) (u c : String) : Store :=
  { proUsers := setAdd s.proUsers u, customerMap := mapSet s.customerMap u c }

/-- Spec name for `proUsers.has(userId)` (the /check-pro lookup). -/
def isEntitled (s : Store) (u : String) : Bool :=
  listHas s.proUsers u

/-- Spec name for `global.customerMap.get(userId)` (forward lookup). -/
def resolveCustomerRef (s : Store) (u : String) : Option String :=
  mapGet s.customerMap u

/-- The checkout.session.completed branch of the webhook handler: reads
`client_reference_id` and `customer` from the session and mutates the store
only when BOTH are truthy (`if (userId && customerId)`). -/
def applyCheckoutCompleted (s : Store) (ev : StripeEvent) : Store :=
  match ev.clientReferenceId, ev.customer with
  | some userId, some customerId =>
    if userId ≠ "" ∧ customerId ≠ "" then grant s userId customerId else s
  | _, _ => s

/-- The customer.subscription.deleted branch of the webhook handler: reads
`subscription.customer`, scans `customerMap` in insertion order for the first
userId associated to it, deletes that userId from `proUsers`, and breaks.
When the customer field is absent no entry can compare equal, and when no
entry matches the loop falls through: both are silent no-ops. -/
def applySubscriptionDeleted (s : Store) (ev : StripeEvent) : Store :=
  match ev.customer with
  | none => s
  | some customerId =>
    match findUserByCustomer s.customerMap customerId with
    | none => s
    | some userId => { s with proUsers := setDelete s.proUsers userId }

/-- POST /webhook.  `stripe.webhooks.constructEvent` either throws
(verification failure: respond 400 with `Webhook Error: <message>` before any
state is touched) or yields a verified event; then each of the two recognised
event types is checked in turn, and the handler acknowledges with
status 200 and body `received: true`. -/
def postWebhook (s : Store) (verified : Except String StripeEvent) :
    Store × Response :=
  match verified with
  | .error msg => (s, ⟨400, .errorMsg ("Webhook Error: " ++ msg)⟩)
  | .ok event =>
    let s1 := if event.type = "checkout.session.completed" then
        applyCheckoutCompleted s event else s
    let s2 := if event.type = "customer.subscription.deleted" then
        applySubscriptionDeleted s1 event else s1
    (s2, ⟨200, .receivedTrue⟩)

/-- GET /check-pro/:userId. -/
def getCheckPro (s : Store) (userId : String) : Response :=
  ⟨200, .isProBody (listHas s.proUsers userId)⟩

/-- POST /cancel-subscription.  Destructures `userId` from the body with no
validation, runs `proUsers.delete(userId)` (deleting `undefined` from a set
of strings is a no-op) and responds 200 with `success: true`. -/
def postCancelSubscription (s : Store) (userId : Option String) :
    Store × Response :=
  match userId with
  | none => (s, ⟨200, .successTrue⟩)
  | some u => ({ s with proUsers := setDelete s.proUsers u }, ⟨200, .successTrue⟩)

/-- POST /create-checkout.  Responds 400 when `userId` is falsy; otherwise
delegates to `stripe.checkout.sessions.create`, whose outcome (a url, or a
thrown error caught as 500) is the `sessionCreate` parameter.  The store is
never touched. -/
def postCreateCheckout (s : Store) (userId : Option String)
    (sessionCreate : Except String String) : Store × Response :=
  if truthy userId = false then (s, ⟨400, .errorMsg "User ID required"⟩)
  else
    match sessionCreate with
    | .ok url => (s, ⟨200, .urlBody url⟩)
    | .error msg => (s, ⟨500, .errorMsg msg⟩)

/-- POST /create-portal-session.  Responds 400 when `userId` is falsy; then
tries three methods in order: (1) `stripe.customers.search` by metadata and a
portal session for the first hit — any throw inside this block is caught and
falls through; (2) the in-memory `customerMap` (skipped when the stored id is
falsy), where a portal failure is a 500; (3) `stripe.customers.list` by the
synthesized email, 404 when it finds nobody, 500 on a throw.  The outcomes of
the three Stripe calls are the `searchByMetadata`, `portalCreate` and
`listByEmail` parameters.  The store is never touched. -/
def postCreatePortalSession (s : Store) (userId : Option String)
    (searchByMetadata : Except String (List String))
    (portalCreate : String → Except String String)
    (listByEmail : Except String (List String)) : Store × Response :=
  if truthy userId = false then (s, ⟨400, .errorMsg "User ID required"⟩)
  else
    let u := userId.getD ""
    let method1 : Option Response :=
      match searchByMetadata with
      | .ok (customerId :: _) =>
        match portalCreate customerId with
        | .ok url => some ⟨200, .urlBody url⟩
        | .error _ => none
      | _ => none
    match method1 with
    | some r => (s, r)
    | none =>
      let method3 : Response :=
        match listByEmail with
        | .error msg => ⟨500, .errorMsg msg⟩
        | .ok [] =>
          ⟨404, .errorMsg
            "No active subscription found. Please contact support or subscribe again."⟩
        | .ok (customerId :: _) =>
          match portalCreate customerId with
          | .ok url => ⟨200, .urlBody url⟩
          | .error msg => ⟨500, .errorMsg msg⟩
      match mapGet s.customerMap u with
      | some customerId =>
        if customerId = "" then (s, method3)
        else
          match portalCreate customerId with
          | .ok url => (s, ⟨200, .urlBody url⟩)
          | .error msg => (s, ⟨500, .errorMsg msg⟩)
      | none => (s, method3)

/- ## Basic lemmas about the list models of JS Set and Map -/

theorem listHas_append_single (l : List String) (x : String) :
    listHas (l ++ [x]) x = true := by
  induction l with
  | nil => simp [listHas]
  | cons y rest ih =>
    by_cases hy : y = x
    · simp [listHas, hy]
    · simpa [listHas, hy] using ih

theorem listHas_setAdd_self (l : List String) (x : String) :
    listHas (setAdd l x) x = true := by
  unfold setAdd
  by_cases h : listHas l x
  · simp [h]
  · simp [h, listHas_append_single]

theorem listHas_setDelete_self (l : List String) (x : String) :
    listHas (setDelete l x) x = false := by
  induction l with
  | nil => simp [setDelete, listHas]
  | cons y rest ih =>
    by_cases hy : y = x
    · simpa [setDelete, listHas, hy] using ih
    · simpa [setDelete, listHas, hy] using ih

theorem listHas_setDelete_ne (l : List String) (x y : String) (h : y ≠ x) :
    listHas (setDelete l x) y = listHas l y := by
  induction l with
  | nil => simp [setDelete]
  | cons z rest ih =>
    by_cases hz : z = x
    · subst hz
      have hzy : ¬ (z = y) := fun e => h e.symm
      simp [setDelete, listHas, hzy, ih]
    · by_cases hzy : z = y <;> simp [setDelete, listHas, hz, hzy, h, ih]

theorem setDelete_idem (l : List String) (x : String) :
    setDelete (setDelete l x) x = setDelete l x := by
  induction l with
  | nil => rfl
  | cons y rest ih =>
    by_cases hy : y = x <;> simp [setDelete, hy, ih]

theorem mapGet_mapSet_self (m : List (String × String)) (k v : String) :
    mapGet (mapSet m k v) k = some v := by
  induction m with
  | nil => simp [mapSet, mapGet]
  | cons p rest ih =>
    by_cases hk : p.1 = k <;> simp [mapSet, mapGet, hk, ih]

theorem findUserByCustomer_mapSet (m : List (String × String)) (u c : String)
    (h : ∀ p ∈ m, p.2 = c → p.1 = u) :
    findUserByCustomer (mapSet m u c) c = some u := by
  induction m with
  | nil => simp [mapSet, findUserByCustomer]
  | cons p rest ih =>
    by_cases hk : p.1 = u
    · simp [mapSet, hk, findUserByCustomer]
    · have hv : p.2 ≠ c := fun hvc => hk (h p (List.mem_cons_self p rest) hvc)
      simp [mapSet, hk, findUserByCustomer, hv]
      exact ih (fun q hq hqc => h q (List.mem_cons_of_mem p hq) hqc)

theorem findUserByCustomer_of_not_assoc (m : List (String × String)) (c : String)
    (h : ∀ p ∈ m, p.2 ≠ c) :
    findUserByCustomer m c = none := by
  induction m with
  | nil => rfl
  | cons p rest ih =>
    have hv : p.2 ≠ c := h p (List.mem_cons_self p rest)
    simp [findUserByCustomer, hv]
    exact ih (fun q hq => h q (List.mem_cons_of_mem p hq))

theorem findUserByCustomer_first (m1 m2 : List (String × String)) (u c : String)
    (h : ∀ p ∈ m1, p.2 ≠ c) :
    findUserByCustomer (m1 ++ (u, c) :: m2) c = some u := by
  induction m1 with
  | nil => simp [findUserByCustomer]
  | cons p rest ih =>
    have hv : p.2 ≠ c := h p (List.mem_cons_self p rest)
    simp [findUserByCustomer, hv]
    exact ih (fun q hq => h q (List.mem_cons_of_mem p hq))

/- ## Unfolding lemmas for the webhook dispatcher -/

theorem postWebhook_checkout_eq (s : Store) (ev : StripeEvent)
    (h : ev.type = "checkout.session.completed") :
    postWebhook s (.ok ev) = (applyCheckoutCompleted s ev, ⟨200, .receivedTrue⟩) := by
  simp [postWebhook, h]

theorem postWebhook_subDeleted_eq (s : Store) (ev : StripeEvent)
    (h : ev.type = "customer.subscription.deleted") :
    postWebhook s (.ok ev) = (applySubscriptionDeleted s ev, ⟨200, .receivedTrue⟩) := by
  simp [postWebhook, h]

/- ## The claims -/

/-- C1: a POST /webhook request whose signature verification fails is
answered 400 with an error message, the store (proUsers and customerMap) is
exactly as it was before the request, and the response body is not the
acknowledgment `received: true`. -/
theorem webhook_bad_signature_C1 (s : Store) (msg : String) :
    (postWebhook s (.error msg)).1 = s ∧
    (postWebhook s (.error msg)).2.status = 400 ∧
    (postWebhook s (.error msg)).2.body = .errorMsg ("Webhook Error: " ++ msg) ∧
    (postWebhook s (.error msg)).2.body ≠ .receivedTrue := by
  refine ⟨rfl, rfl, rfl, ?_⟩
  simp [postWebhook]

/-- C2 fails on the code: a verified checkout.session.completed event whose
payload carries a userId but no customer is dropped — the handler requires
BOTH fields truthy — so the user is NOT granted entitlement, and the store is
unchanged, contradicting the claim that only a missing userId drops the
event. -/
theorem checkout_no_customer_C2_cex :
    (postWebhook ⟨[], []⟩
      (.ok ⟨"checkout.session.completed", some "u1", none⟩)).1 = ⟨[], []⟩ ∧
    isEntitled (postWebhook ⟨[], []⟩
      (.ok ⟨"checkout.session.completed", some "u1", none⟩)).1 "u1" = false := by
  decide

/-- C2 (amended): a verified checkout.session.completed event transitions the
user to Pro exactly when BOTH userId and customerRef are present and truthy in
the payload; an event carrying a userId but no customerRef is dropped with no
state change. -/
theorem checkout_requires_customer_C2 (s : Store) (u c : String)
    (hu : u ≠ "") (hc : c ≠ "") :
    isEntitled (postWebhook s
      (.ok ⟨"checkout.session.completed", some u, some c⟩)).1 u = true ∧
    (postWebhook s (.ok ⟨"checkout.session.completed", some u, none⟩)).1 = s := by
  rw [postWebhook_checkout_eq s ⟨"checkout.session.completed", some u, some c⟩ rfl,
    postWebhook_checkout_eq s ⟨"checkout.session.completed", some u, none⟩ rfl]
  constructor
  · simp [applyCheckoutCompleted, hu, hc, grant, isEntitled, listHas_setAdd_self]
  · simp [applyCheckoutCompleted]

/-- Witness for C2 (amended) at userId "u1", customer "cus_1". -/
theorem checkout_requires_customer_C2_witness :
    ("u1" : String) ≠ "" ∧ ("cus_1" : String) ≠ "" ∧
    (isEntitled (postWebhook ⟨[], []⟩
      (.ok ⟨"checkout.session.completed", some "u1", some "cus_1"⟩)).1 "u1" = true ∧
     (postWebhook ⟨[], []⟩
      (.ok ⟨"checkout.session.completed", some "u1", none⟩)).1 = ⟨[], []⟩) :=
  ⟨by decide, by decide,
    checkout_requires_customer_C2 ⟨[], []⟩ "u1" "cus_1" (by decide) (by decide)⟩

/-- C3: the verified checkout.session.completed event for userId u with
customer c acts as `grant s u c`; after it, `isEntitled u` is true and
`resolveCustomerRef u` is `some c`; a later grant for the same u with c'
overwrites the association to c' while isPro stays true. -/
theorem grant_overwrite_C3 (s : Store) (u c cNew : String)
    (hu : u ≠ "") (hc : c ≠ "") :
    (postWebhook s
      (.ok ⟨"checkout.session.completed", some u, some c⟩)).1 = grant s u c ∧
    isEntitled (grant s u c) u = true ∧
    resolveCustomerRef (grant s u c) u = some c ∧
    isEntitled (grant (grant s u c) u cNew) u = true ∧
    resolveCustomerRef (grant (grant s u c) u cNew) u = some cNew := by
  refine ⟨?_, ?_, ?_, ?_, ?_⟩
  · rw [postWebhook_checkout_eq s ⟨"checkout.session.completed", some u, some c⟩ rfl]
    simp [applyCheckoutCompleted, hu, hc]
  · simp [grant, isEntitled, listHas_setAdd_self]
  · simp [grant, resolveCustomerRef, mapGet_mapSet_self]
  · simp [grant, isEntitled, listHas_setAdd_self]
  · simp [grant, resolveCustomerRef, mapGet_mapSet_self]

/-- Witness for C3 at userId "u1", customers "cus_1" then "cus_2". -/
theorem grant_overwrite_C3_witness :
    ("u1" : String) ≠ "" ∧ ("cus_1" : String) ≠ "" ∧
    ((postWebhook ⟨[], []⟩
      (.ok ⟨"checkout.session.completed", some "u1", some "cus_1"⟩)).1 =
        grant ⟨[], []⟩ "u1" "cus_1" ∧
     isEntitled (grant ⟨[], []⟩ "u1" "cus_1") "u1" = true ∧
     resolveCustomerRef (grant ⟨[], []⟩ "u1" "cus_1") "u1" = some "cus_1" ∧
     isEntitled (grant (grant ⟨[], []⟩ "u1" "cus_1") "u1" "cus_2") "u1" = true ∧
     resolveCustomerRef (grant (grant ⟨[], []⟩ "u1" "cus_1") "u1" "cus_2") "u1" =
       some "cus_2") :=
  ⟨by decide, by decide,
    grant_overwrite_C3 ⟨[], []⟩ "u1" "cus_1" "cus_2" (by decide) (by decide)⟩

/-- C4 fails on the code in general: starting from a store where "u2" is
already associated to "cus_1", granting "u1" with "cus_1" and then delivering
customer.subscription.deleted for "cus_1" revokes the earlier-inserted "u2",
so "u1" is still entitled, contradicting `isEntitled(u) == false`. -/
theorem grant_then_revoke_C4_cex :
    isEntitled (postWebhook (postWebhook ⟨["u2"], [("u2", "cus_1")]⟩
        (.ok ⟨"checkout.session.completed", some "u1", some "cus_1"⟩)).1
        (.ok ⟨"customer.subscription.deleted", none, some "cus_1"⟩)).1 "u1" = true := by
  decide

/-- C4 (amended): provided no OTHER user is associated to c in the pre-state
(every customerMap entry with value c already has key u), a verified
checkout.session.completed grant of (u, c) followed by a verified
customer.subscription.deleted event for c leaves u not entitled. -/
theorem grant_then_revoke_C4 (s : Store) (u c : String)
    (hu : u ≠ "") (hc : c ≠ "")
    (huniq : ∀ p ∈ s.customerMap, p.2 = c → p.1 = u) :
    isEntitled (postWebhook (postWebhook s
        (.ok ⟨"checkout.session.completed", some u, some c⟩)).1
        (.ok ⟨"customer.subscription.deleted", none, some c⟩)).1 u = false := by
  have h1 : (postWebhook s
      (.ok ⟨"checkout.session.completed", some u, some c⟩)).1 = grant s u c := by
    rw [postWebhook_checkout_eq s ⟨"checkout.session.completed", some u, some c⟩ rfl]
    simp [applyCheckoutCompleted, hu, hc]
  rw [h1, postWebhook_subDeleted_eq (grant s u c)
    ⟨"customer.subscription.deleted", none, some c⟩ rfl]
  have h2 : findUserByCustomer (mapSet s.customerMap u c) c = some u :=
    findUserByCustomer_mapSet s.customerMap u c huniq
  simp [applySubscriptionDeleted, grant, h2, isEntitled, listHas_setDelete_self]

/-- Witness for C4 (amended) from the empty store. -/
theorem grant_then_revoke_C4_witness :
    ("u1" : String) ≠ "" ∧ ("cus_1" : String) ≠ "" ∧
    (∀ p ∈ (⟨[], []⟩ : Store).customerMap, p.2 = "cus_1" → p.1 = "u1") ∧
    isEntitled (postWebhook (postWebhook ⟨[], []⟩
        (.ok ⟨"checkout.session.completed", some "u1", some "cus_1"⟩)).1
        (.ok ⟨"customer.subscription.deleted", none, some "cus_1"⟩)).1 "u1" = false :=
  ⟨by decide, by decide, by decide,
    grant_then_revoke_C4 ⟨[], []⟩ "u1" "cus_1" (by decide) (by decide) (by decide)⟩

/-- C5 fails on the code: POST /cancel-subscription performs no userId
validation at all — with userId absent from the body it responds 200 with
`success: true` (not 400 with an error), though the store is unchanged. -/
theorem missing_userId_C5_cex :
    (postCancelSubscription ⟨[], []⟩ none).2.status = 200 ∧
    (postCancelSubscription ⟨[], []⟩ none).2.status ≠ 400 ∧
    (postCancelSubscription ⟨[], []⟩ none).2.body = .successTrue ∧
    (postCancelSubscription ⟨[], []⟩ none).1 = ⟨[], []⟩ := by
  decide

/-- C5 (amended): with userId missing from the body, POST /create-checkout
and POST /create-portal-session respond 400 with an error message and leave
the store unchanged; POST /cancel-subscription does not validate and responds
200 with `success: true`, also leaving the store unchanged (deleting the
absent key is a no-op). -/
theorem missing_userId_C5 (s : Store) (sessionCreate : Except String String)
    (search : Except String (List String)) (portal : String → Except String String)
    (lst : Except String (List String)) :
    postCreateCheckout s none sessionCreate =
      (s, ⟨400, .errorMsg "User ID required"⟩) ∧
    postCreatePortalSession s none search portal lst =
      (s, ⟨400, .errorMsg "User ID required"⟩) ∧
    postCancelSubscription s none = (s, ⟨200, .successTrue⟩) :=
  ⟨rfl, rfl, rfl⟩

/-- C6: POST /cancel-subscription for any userId leaves that user not
entitled and responds 200 with `success: true`, including when no prior grant
ever occurred (arbitrary store), and repeating the command changes nothing
further (idempotent downgrade). -/
theorem cancel_idempotent_C6 (s : Store) (u : String) :
    isEntitled (postCancelSubscription s (some u)).1 u = false ∧
    (postCancelSubscription s (some u)).2 = ⟨200, .successTrue⟩ ∧
    postCancelSubscription (postCancelSubscription s (some u)).1 (some u) =
      postCancelSubscription s (some u) := by
  refine ⟨?_, rfl, ?_⟩
  · simp [postCancelSubscription, isEntitled, listHas_setDelete_self]
  · simp [postCancelSubscription, setDelete_idem]

/-- C7: a verified customer.subscription.deleted event for a customerRef that
no user is associated to is a silent no-op: the whole store (every isPro
status and every association) is unchanged and the request is still
acknowledged with 200 `received: true`. -/
theorem revoke_unknown_ref_C7 (s : Store) (c : String)
    (h : ∀ p ∈ s.customerMap, p.2 ≠ c) :
    postWebhook s (.ok ⟨"customer.subscription.deleted", none, some c⟩) =
      (s, ⟨200, .receivedTrue⟩) := by
  rw [postWebhook_subDeleted_eq s ⟨"customer.subscription.deleted", none, some c⟩ rfl]
  simp [applySubscriptionDeleted, findUserByCustomer_of_not_assoc s.customerMap c h]

/-- Witness for C7: store knows only "u1" -> "cus_1", event is for "cus_2". -/
theorem revoke_unknown_ref_C7_witness :
    (∀ p ∈ (⟨["u1"], [("u1", "cus_1")]⟩ : Store).customerMap, p.2 ≠ "cus_2") ∧
    postWebhook ⟨["u1"], [("u1", "cus_1")]⟩
        (.ok ⟨"customer.subscription.deleted", none, some "cus_2"⟩) =
      (⟨["u1"], [("u1", "cus_1")]⟩, ⟨200, .receivedTrue⟩) :=
  ⟨by decide, revoke_unknown_ref_C7 ⟨["u1"], [("u1", "cus_1")]⟩ "cus_2" (by decide)⟩

/-- C8: both revoke paths — the customer.subscription.deleted webhook branch
(for any customer field) and POST /cancel-subscription (for any body) — leave
customerMap exactly as it was: only isPro membership can change. -/
theorem revoke_frame_C8 (s : Store) (uid rid cust : Option String) :
    ((postWebhook s
      (.ok ⟨"customer.subscription.deleted", rid, cust⟩)).1).customerMap =
        s.customerMap ∧
    ((postCancelSubscription s uid).1).customerMap = s.customerMap := by
  constructor
  · rw [postWebhook_subDeleted_eq s ⟨"customer.subscription.deleted", rid, cust⟩ rfl]
    cases cust with
    | none => rfl
    | some c =>
      cases hf : findUserByCustomer s.customerMap c <;>
        simp [applySubscriptionDeleted, hf]
  · cases uid <;> rfl

/-- C9: a verified webhook event whose type is neither
checkout.session.completed nor customer.subscription.deleted is acknowledged
with 200 `received: true` and leaves the store exactly unchanged. -/
theorem unknown_event_C9 (s : Store) (ev : StripeEvent)
    (h1 : ev.type ≠ "checkout.session.completed")
    (h2 : ev.type ≠ "customer.subscription.deleted") :
    postWebhook s (.ok ev) = (s, ⟨200, .receivedTrue⟩) := by
  simp [postWebhook, h1, h2]

/-- Witness for C9 with an invoice.paid event on a nonempty store. -/
theorem unknown_event_C9_witness :
    (("invoice.paid" : String) ≠ "checkout.session.completed") ∧
    (("invoice.paid" : String) ≠ "customer.subscription.deleted") ∧
    postWebhook ⟨["u1"], [("u1", "cus_1")]⟩
        (.ok ⟨"invoice.paid", some "u1", some "cus_1"⟩) =
      (⟨["u1"], [("u1", "cus_1")]⟩, ⟨200, .receivedTrue⟩) :=
  ⟨by decide, by decide,
    unknown_event_C9 ⟨["u1"], [("u1", "cus_1")]⟩
      ⟨"invoice.paid", some "u1", some "cus_1"⟩ (by decide) (by decide)⟩

/-- C10: when two distinct users u1 and u2 are both associated to the same
customerRef c — u1's association first in insertion order (nothing before it
carries c) — a customer.subscription.deleted event for c downgrades exactly
u1, leaves u2's isPro status unchanged, and leaves customerMap unchanged. -/
theorem revoke_first_inserted_C10 (pre post : List (String × String))
    (pro : List String) (u1 u2 c : String) (hne : u1 ≠ u2)
    (hpre : ∀ p ∈ pre, p.2 ≠ c)
    (_hu2 : mapGet (pre ++ (u1, c) :: post) u2 = some c) :
    isEntitled (postWebhook ⟨pro, pre ++ (u1, c) :: post⟩
        (.ok ⟨"customer.subscription.deleted", none, some c⟩)).1 u1 = false ∧
    isEntitled (postWebhook ⟨pro, pre ++ (u1, c) :: post⟩
        (.ok ⟨"customer.subscription.deleted", none, some c⟩)).1 u2 =
      isEntitled ⟨pro, pre ++ (u1, c) :: post⟩ u2 ∧
    ((postWebhook ⟨pro, pre ++ (u1, c) :: post⟩
        (.ok ⟨"customer.subscription.deleted", none, some c⟩)).1).customerMap =
      pre ++ (u1, c) :: post := by
  rw [postWebhook_subDeleted_eq ⟨pro, pre ++ (u1, c) :: post⟩
    ⟨"customer.subscription.deleted", none, some c⟩ rfl]
  have hfind := findUserByCustomer_first pre post u1 c hpre
  refine ⟨?_, ?_, ?_⟩
  · simp [applySubscriptionDeleted, hfind, isEntitled, listHas_setDelete_self]
  · simp [applySubscriptionDeleted, hfind, isEntitled,
      listHas_setDelete_ne pro u1 u2 (Ne.symm hne)]
  · simp [applySubscriptionDeleted, hfind]

/-- Witness for C10: "u1" and "u2" both associated to "cus_1", "u1" first. -/
theorem revoke_first_inserted_C10_witness :
    ("u1" : String) ≠ "u2" ∧
    (∀ p ∈ ([] : List (String × String)), p.2 ≠ "cus_1") ∧
    mapGet ([] ++ ("u1", "cus_1") :: [("u2", "cus_1")]) "u2" = some "cus_1" ∧
    (isEntitled (postWebhook ⟨["u1", "u2"], [] ++ ("u1", "cus_1") :: [("u2", "cus_1")]⟩
        (.ok ⟨"customer.subscription.deleted", none, some "cus_1"⟩)).1 "u1" = false ∧
     isEntitled (postWebhook ⟨["u1", "u2"], [] ++ ("u1", "cus_1") :: [("u2", "cus_1")]⟩
        (.ok ⟨"customer.subscription.deleted", none, some "cus_1"⟩)).1 "u2" =
       isEntitled ⟨["u1", "u2"], [] ++ ("u1", "cus_1") :: [("u2", "cus_1")]⟩ "u2" ∧
     ((postWebhook ⟨["u1", "u2"], [] ++ ("u1", "cus_1") :: [("u2", "cus_1")]⟩
        (.ok ⟨"customer.subscription.deleted", none, some "cus_1"⟩)).1).customerMap =
       [] ++ ("u1", "cus_1") :: [("u2", "cus_1")]) :=
  ⟨by decide, by decide, by decide,
    revoke_first_inserted_C10 [] [("u2", "cus_1")] ["u1", "u2"] "u1" "u2" "cus_1"
      (by decide) (by decide) (by decide)⟩

end SnapMark
